import Mathlib

/-!
Shallow embedding of `src/src/lib/figlet.tsx` (the jcubic/atm repository):
the responsive width resolver (`effectiveWidth`, lines 75-81 and 136-142),
the figlet options construction (lines 84-94), the asynchronous render-state
controller of `useFiglet` (the `figlet.text` callback, lines 96-103, together
with the React effect that re-fires on every dependency change, line 104),
the synchronous variant `useFigletSync` (lines 145-163), and the displayed
value selection of the `Figlet` component (`asciiArt || fallback || text`,
line 214).
-/

/-- The `responsive` prop of `FigletProps`: `boolean | number` in the source. -/
inductive ResponsiveProp where
  | bool (b : Bool)
  | num (p : ℚ)
deriving DecidableEq

/-- JavaScript truthiness of the `responsive` prop as tested by
`if (responsive)`: `false` is falsy and a number is falsy exactly when it
is `0`. -/
def ResponsiveProp.truthy : ResponsiveProp → Bool
  | .bool b => b
  | .num p => decide (p ≠ 0)

/-- The `effectiveWidth` memo of `useFiglet` / `useFigletSync`
(figlet.tsx lines 75-81 and 136-142):

```
if (responsive) {
  const percentage = typeof responsive === 'number' ? responsive : 1;
  return Math.floor(terminalWidth * Math.min(1, Math.max(0, percentage)));
}
return fixedWidth;
```

`none` plays the role of `undefined`. -/
def effectiveWidth (responsive : ResponsiveProp) (terminalWidth : ℕ)
    (fixedWidth : Option ℕ) : Option ℤ :=
  if responsive.truthy then
    let percentage : ℚ :=
      match responsive with
      | .num p => p
      | .bool _ => 1
    some ⌊(terminalWidth : ℚ) * min 1 (max 0 percentage)⌋
  else
    fixedWidth.map Int.ofNat

/-- The spec's `SizingDirective` data model. `NoWidth` is the spec's `None`
directive (no width constraint at all). -/
inductive SizingDirective where
  | Fixed (w : ℕ)
  | ResponsiveFull
  | ResponsiveFraction (p : ℚ)
  | NoWidth
deriving DecidableEq

/-- How each sizing directive is expressed through the component props:
`Fixed(w)` is `responsive` absent (default `false`) with `width = w`;
`ResponsiveFull` is `responsive = true`; `ResponsiveFraction(p)` is
`responsive = p`; the `None` directive passes neither prop. -/
def SizingDirective.props : SizingDirective → ResponsiveProp × Option ℕ
  | .Fixed w => (.bool false, some w)
  | .ResponsiveFull => (.bool true, none)
  | .ResponsiveFraction p => (.num p, none)
  | .NoWidth => (.bool false, none)

/-- The spec's width resolver `resolve(directive, terminalWidth)`, realised
by the code's `effectiveWidth` computation on the directive's props. -/
def resolve (d : SizingDirective) (W : ℕ) : Option ℤ :=
  effectiveWidth d.props.1 W d.props.2

/-- `InternalFigletOptions` (figlet.tsx lines 39-45); the `width` field is
optional and left absent (`none`) when no effective width exists. -/
structure InternalFigletOptions where
  font : String
  horizontalLayout : String
  verticalLayout : String
  whitespaceBreak : Bool
  width : Option ℤ
deriving DecidableEq

/-- Construction of `figletOptions` (figlet.tsx lines 84-94): the `width`
field is set exactly when `effectiveWidth !== undefined`. -/
def buildFigletOptions (font horizontalLayout verticalLayout : String)
    (whitespaceBreak : Bool) (ew : Option ℤ) : InternalFigletOptions :=
  { font := font, horizontalLayout := horizontalLayout,
    verticalLayout := verticalLayout, whitespaceBreak := whitespaceBreak,
    width := ew }

/-- JavaScript `a || b` on strings: the empty string is falsy. -/
def jsOr (a b : String) : String := if a = "" then b else a

/-- The spec's `RenderState`. In the code the state is the `asciiArt`
string: `Pending` is the initial `''`, `Ready x` / `FallbackShown x` record
which callback branch stored `x`. -/
inductive RenderState where
  | Pending
  | Ready (text : String)
  | FallbackShown (text : String)
deriving DecidableEq

/-- The string held in the `asciiArt` state variable for a render state. -/
def RenderState.art : RenderState → String
  | .Pending => ""
  | .Ready x => x
  | .FallbackShown x => x

/-- Outcome delivered to the `figlet.text` callback `(err, result)`:
either an error, or a `result : string | undefined`. -/
inductive GenOutcome where
  | err (e : String)
  | ok (result : Option String)
deriving DecidableEq

/-- The dependency list of the `useEffect` (figlet.tsx line 104):
`[text, font, horizontalLayout, verticalLayout, effectiveWidth,
whitespaceBreak]`. -/
structure Inputs where
  text : String
  font : String
  horizontalLayout : String
  verticalLayout : String
  whitespaceBreak : Bool
  effectiveWidth : Option ℤ
deriving DecidableEq

/-- State of one `useFiglet` hook instance: the current effect inputs, the
`asciiArt` React state (as a `RenderState` whose `art` is the stored
string), the outstanding `figlet.text` calls (each tagged with the issue
order and the inputs captured by its callback closure), the next tag, and
the number of `console.error` calls so far. -/
structure HookState where
  inputs : Inputs
  phase : RenderState
  pending : List (ℕ × Inputs)
  nextToken : ℕ
  logCount : ℕ
deriving DecidableEq

/-- The `figlet.text` callback (figlet.tsx lines 96-103):

```
(err, result) => {
  if (err) { console.error(...); setAsciiArt(text); }
  else { setAsciiArt(result || text); }
}
```

`reqText` is the `text` captured when the call was issued. -/
def figletCallback (reqText : String) (o : GenOutcome) (s : HookState) :
    HookState :=
  match o with
  | .err _ =>
      { s with phase := .FallbackShown reqText, logCount := s.logCount + 1 }
  | .ok result =>
      { s with phase := .Ready (jsOr (result.getD "") reqText) }

/-- Events a hook instance can observe: a re-render with (possibly) new
effect inputs, or the completion of the outstanding `figlet.text` call
tagged `tok`. -/
inductive Event where
  | changeInputs (i : Inputs)
  | complete (tok : ℕ) (o : GenOutcome)
deriving DecidableEq

/-- Whether an event is a generator completion. -/
def Event.isComplete : Event → Bool
  | .complete _ _ => true
  | .changeInputs _ => false

/-- One step of a `useFiglet` instance. A `changeInputs` with unchanged
inputs is a re-render whose effect does not re-fire (React compares the
dependency list); with changed inputs the effect re-fires and issues a new
`figlet.text` call, leaving `asciiArt` untouched. A `complete tok o` for an
outstanding call runs its callback on the captured text; a completion for
an unknown tag is ignored. -/
def step (s : HookState) (e : Event) : HookState :=
  match e with
  | .changeInputs i =>
      if i = s.inputs then s
      else
        { s with inputs := i,
                 pending := s.pending ++ [(s.nextToken, i)],
                 nextToken := s.nextToken + 1 }
  | .complete tok o =>
      match s.pending.find? (fun r => r.1 == tok) with
      | some req =>
          figletCallback req.2.text o
            { s with pending := s.pending.filter (fun r => r.1 != tok) }
      | none => s

/-- Mounting the hook with inputs `i`: `useState('')` makes the initial
`asciiArt` empty (`Pending`) and the first effect run issues call `0`. -/
def mount (i : Inputs) : HookState :=
  { inputs := i, phase := .Pending, pending := [(0, i)], nextToken := 1,
    logCount := 0 }

/-- Run a hook instance over a list of events. -/
def run (s : HookState) (evs : List Event) : HookState := evs.foldl step s

/-- The `Figlet` component's displayed value
(figlet.tsx line 214): `asciiArt || fallback || text`, `fallback` being
`string | undefined`. -/
def displayText (asciiArt : String) (fallback : Option String)
    (text : String) : String :=
  jsOr asciiArt
    (match fallback with
     | some f => jsOr f text
     | none => text)

/-- The displayed-value selection rule, written from the spec's words for
comparison with the code's `displayText`: `Ready(x)` shows `x`; `Pending`
shows the caller fallback if provided, else the input text;
`FallbackShown(x)` shows `x`. -/
def specDisplay (s : RenderState) (fallback : Option String)
    (text : String) : String :=
  match s with
  | .Pending => fallback.getD text
  | .Ready x => x
  | .FallbackShown x => x

/-- The synchronous variant `useFigletSync` (figlet.tsx lines 145-163): the
generator `gen` models `figlet.textSync`, which either returns a string or
throws. The result pairs the returned string with the number of
`console.error` calls made. -/
def useFigletSync (gen : String → InternalFigletOptions → Except String String)
    (text : String) (font horizontalLayout verticalLayout : String)
    (responsive : ResponsiveProp) (fixedWidth : Option ℕ)
    (whitespaceBreak : Bool) (terminalWidth : ℕ) : String × ℕ :=
  let ew := effectiveWidth responsive terminalWidth fixedWidth
  match gen text (buildFigletOptions font horizontalLayout verticalLayout
      whitespaceBreak ew) with
  | .ok r => (r, 0)
  | .error _ => (text, 1)

/-- Concrete inputs used in witnesses and counterexamples. -/
def iA : Inputs :=
  { text := "A", font := "Standard", horizontalLayout := "default",
    verticalLayout := "default", whitespaceBreak := true,
    effectiveWidth := none }

/-- `iA` with the text changed. -/
def iB : Inputs := { iA with text := "B" }

/-- `iA` with empty text. -/
def iE : Inputs := { iA with text := "" }

/-- Helper: a re-render never changes the `asciiArt` phase; only a
completion can. -/
theorem step_changeInputs_phase (s : HookState) (i : Inputs) :
    (step s (Event.changeInputs i)).phase = s.phase := by
  simp only [step]
  split <;> rfl

/-- Helper: a run containing no completion events leaves the phase
untouched. -/
theorem run_phase_of_no_complete (s : HookState) (evs : List Event)
    (h : ∀ e ∈ evs, e.isComplete = false) : (run s evs).phase = s.phase := by
  induction evs generalizing s with
  | nil => rfl
  | cons e tl ih =>
      cases e with
      | changeInputs i =>
          have htl : ∀ x ∈ tl, x.isComplete = false :=
            fun x hx => h x (List.mem_cons_of_mem _ hx)
          have hrun : run s (Event.changeInputs i :: tl)
              = run (step s (Event.changeInputs i)) tl := rfl
          rw [hrun, ih _ htl, step_changeInputs_phase]
      | complete tok o =>
          have hc := h _ (List.mem_cons_self _ tl)
          simp [Event.isComplete] at hc

/-- Claim C1 counterexample: resolving `ResponsiveFraction(0)` at terminal
width 100 does not yield 0. `responsive = 0` is falsy in JavaScript, so the
code falls through to the fixed width, which here is absent. -/
theorem C1_fraction_zero_counterexample :
    resolve (SizingDirective.ResponsiveFraction 0) 100 ≠ some 0 ∧
    resolve (SizingDirective.ResponsiveFraction 0) 100 = none := by
  decide

/-- Claim C1 (amended): for every nonzero fraction `p`,
`resolve(ResponsiveFraction p, W) = ⌊W * clamp(p, 0, 1)⌋`; at `p = 0` the
directive is treated as non-responsive and yields no width at all. The
spec's examples hold since their fractions are nonzero: 0.5 ↦ 50,
1.5 ↦ 100, −1 ↦ 0 at terminal width 100. -/
theorem C1_fraction_amended (W : ℕ) (p : ℚ) (hp : p ≠ 0) :
    resolve (SizingDirective.ResponsiveFraction p) W
      = some ⌊(W : ℚ) * min 1 (max 0 p)⌋ ∧
    resolve (SizingDirective.ResponsiveFraction 0) W = none ∧
    resolve (SizingDirective.ResponsiveFraction (1/2)) 100 = some 50 ∧
    resolve (SizingDirective.ResponsiveFraction (3/2)) 100 = some 100 ∧
    resolve (SizingDirective.ResponsiveFraction (-1)) 100 = some 0 := by
  refine ⟨?_, ?_, ?_, ?_, ?_⟩ <;>
    norm_num [resolve, SizingDirective.props, effectiveWidth,
      ResponsiveProp.truthy, hp]

/-- Witness for claim C1 at `W = 100`, `p = 2`. -/
theorem C1_fraction_witness :
    (2 : ℚ) ≠ 0 ∧
    (resolve (SizingDirective.ResponsiveFraction 2) 100
        = some ⌊((100 : ℕ) : ℚ) * min 1 (max 0 (2 : ℚ))⌋ ∧
     resolve (SizingDirective.ResponsiveFraction 0) 100 = none ∧
     resolve (SizingDirective.ResponsiveFraction (1/2)) 100 = some 50 ∧
     resolve (SizingDirective.ResponsiveFraction (3/2)) 100 = some 100 ∧
     resolve (SizingDirective.ResponsiveFraction (-1)) 100 = some 0) :=
  ⟨by decide, C1_fraction_amended 100 2 (by decide)⟩

/-- Claim C8: `ResponsiveFull` (the `responsive = true` prop) resolves to
the full terminal width, and behaves exactly as `ResponsiveFraction(1)`. -/
theorem C8_responsive_full (W : ℕ) :
    resolve SizingDirective.ResponsiveFull W = some (W : ℤ) ∧
    resolve SizingDirective.ResponsiveFull W
      = resolve (SizingDirective.ResponsiveFraction 1) W := by
  have hmm : min (1 : ℚ) (max 0 1) = 1 := by norm_num
  constructor
  · simp [resolve, SizingDirective.props, effectiveWidth,
      ResponsiveProp.truthy, hmm]
  · simp [resolve, SizingDirective.props, effectiveWidth,
      ResponsiveProp.truthy, show (1 : ℚ) ≠ 0 by norm_num]

/-- Claim C9: `Fixed(w)` resolves to `w` at every terminal width; the
`None` directive resolves to no width, and the figlet options built from it
carry no width field at all. -/
theorem C9_fixed_and_no_width (W w : ℕ) (font hl vl : String) (wb : Bool) :
    resolve (SizingDirective.Fixed w) W = some (w : ℤ) ∧
    resolve SizingDirective.NoWidth W = none ∧
    (buildFigletOptions font hl vl wb
        (resolve SizingDirective.NoWidth W)).width = none := by
  refine ⟨?_, ?_, ?_⟩ <;>
    simp [resolve, SizingDirective.props, effectiveWidth,
      ResponsiveProp.truthy, buildFigletOptions]

/-- Claim C2 counterexample: after a successful generation for text "A",
changing the inputs to text "B" does not reset the state to Pending: the
stale art remains and is displayed instead of the fallback or the input
text. -/
theorem C2_pending_counterexample :
    (run (mount iA) [Event.complete 0 (GenOutcome.ok (some "ART")),
        Event.changeInputs iB]).phase ≠ RenderState.Pending ∧
    displayText (run (mount iA) [Event.complete 0 (GenOutcome.ok (some "ART")),
        Event.changeInputs iB]).phase.art (some "Loading") "B" = "ART" := by
  decide

/-- Claim C2 (amended): the hook starts in Pending; a dependency change
restarts generation — a new request carrying the new inputs is issued —
but leaves the phase, hence the displayed value, unchanged rather than
resetting it to Pending; a consumed completion moves the phase to Ready on
success and FallbackShown on error. -/
theorem C2_restart_amended (s : HookState) (i : Inputs) (hi : i ≠ s.inputs)
    (s' : HookState) (tok : ℕ) (o : GenOutcome) (req : ℕ × Inputs)
    (hreq : s'.pending.find? (fun r => r.1 == tok) = some req) :
    (mount i).phase = RenderState.Pending ∧
    (step s (Event.changeInputs i)).pending
      = s.pending ++ [(s.nextToken, i)] ∧
    (step s (Event.changeInputs i)).phase = s.phase ∧
    (step s' (Event.complete tok o)).phase
      = (match o with
         | GenOutcome.err _ => RenderState.FallbackShown req.2.text
         | GenOutcome.ok r => RenderState.Ready (jsOr (r.getD "") req.2.text)) := by
  refine ⟨rfl, ?_, ?_, ?_⟩
  · simp [step, hi]
  · simp [step, hi]
  · simp only [step, hreq]
    cases o <;> rfl

/-- Witness for claim C2: mount with text "A", change to text "B", and let
request 0 fail. -/
theorem C2_restart_witness :
    (iB ≠ (mount iA).inputs ∧
     (mount iA).pending.find? (fun r => r.1 == 0) = some (0, iA)) ∧
    ((mount iB).phase = RenderState.Pending ∧
     (step (mount iA) (Event.changeInputs iB)).pending
        = (mount iA).pending ++ [((mount iA).nextToken, iB)] ∧
     (step (mount iA) (Event.changeInputs iB)).phase = (mount iA).phase ∧
     (step (mount iA) (Event.complete 0 (GenOutcome.err "boom"))).phase
        = RenderState.FallbackShown (0, iA).2.text) :=
  ⟨⟨by decide, by decide⟩,
   C2_restart_amended (mount iA) iB (by decide) (mount iA) 0
     (GenOutcome.err "boom") (0, iA) (by decide)⟩

/-- Claim C3: the code has no stale-completion guard. From text "A", the
inputs change to text "B"; the "B" request completes with "ARTB", then the
stale "A" request completes with "ARTA" and overwrites the newer state. -/
theorem C3_stale_overwrite :
    (run (mount iA) [Event.changeInputs iB,
        Event.complete 1 (GenOutcome.ok (some "ARTB")),
        Event.complete 0 (GenOutcome.ok (some "ARTA"))]).phase
      = RenderState.Ready "ARTA" := by
  decide

/-- Claim C4: a failing completion reaches FallbackShown of that request's
input text — displayed as that original text — and logs the failure exactly
once; `step` is a total function, so the callback returns normally and no
error propagates. -/
theorem C4_failure_fallback (s : HookState) (tok : ℕ) (e : String)
    (req : ℕ × Inputs)
    (hreq : s.pending.find? (fun r => r.1 == tok) = some req) :
    (step s (Event.complete tok (GenOutcome.err e))).phase
      = RenderState.FallbackShown req.2.text ∧
    (step s (Event.complete tok (GenOutcome.err e))).logCount
      = s.logCount + 1 ∧
    displayText (RenderState.FallbackShown req.2.text).art none req.2.text
      = req.2.text := by
  refine ⟨?_, ?_, ?_⟩
  · simp [step, hreq, figletCallback]
  · simp [step, hreq, figletCallback]
  · simp [RenderState.art, displayText, jsOr]

/-- Witness for claim C4: the mounted request for text "A" fails. -/
theorem C4_failure_witness :
    (mount iA).pending.find? (fun r => r.1 == 0) = some (0, iA) ∧
    ((step (mount iA) (Event.complete 0 (GenOutcome.err "boom"))).phase
        = RenderState.FallbackShown (0, iA).2.text ∧
     (step (mount iA) (Event.complete 0 (GenOutcome.err "boom"))).logCount
        = (mount iA).logCount + 1 ∧
     displayText (RenderState.FallbackShown (0, iA).2.text).art none
        (0, iA).2.text = (0, iA).2.text) :=
  ⟨by decide, C4_failure_fallback (mount iA) 0 "boom" (0, iA) (by decide)⟩

/-- Claim C6: a successful completion reaches Ready of the generator's
output, or of that request's input text when the output is empty or
absent. -/
theorem C6_success_ready (s : HookState) (tok : ℕ) (r : Option String)
    (req : ℕ × Inputs)
    (hreq : s.pending.find? (fun a => a.1 == tok) = some req) :
    (step s (Event.complete tok (GenOutcome.ok r))).phase
      = RenderState.Ready
          (match r with
           | some x => if x = "" then req.2.text else x
           | none => req.2.text) := by
  simp only [step, hreq, figletCallback]
  cases r with
  | none => simp [jsOr]
  | some x => by_cases hx : x = "" <;> simp [jsOr, hx]

/-- Witness for claim C6: the mounted request for text "A" succeeds with
"ARTA". -/
theorem C6_success_witness :
    (mount iA).pending.find? (fun a => a.1 == 0) = some (0, iA) ∧
    (step (mount iA) (Event.complete 0 (GenOutcome.ok (some "ARTA")))).phase
      = RenderState.Ready "ARTA" :=
  ⟨by decide, C6_success_ready (mount iA) 0 (some "ARTA") (0, iA) (by decide)⟩

/-- Claim C5: when the synchronous generator throws, `useFigletSync`
returns the original input text with exactly one logged failure;
`useFigletSync` is a total function, so it never re-throws. -/
theorem C5_sync_fallback
    (gen : String → InternalFigletOptions → Except String String)
    (text font hl vl : String) (responsive : ResponsiveProp)
    (fixedWidth : Option ℕ) (wb : Bool) (W : ℕ) (e : String)
    (hgen : gen text (buildFigletOptions font hl vl wb
        (effectiveWidth responsive W fixedWidth)) = Except.error e) :
    useFigletSync gen text font hl vl responsive fixedWidth wb W
      = (text, 1) := by
  simp [useFigletSync, hgen]

/-- Witness for claim C5: a generator that always throws. -/
theorem C5_sync_witness :
    ((fun (_ : String) (_ : InternalFigletOptions) =>
        (Except.error "font not found" : Except String String)) "Hello"
        (buildFigletOptions "Standard" "default" "default" true
          (effectiveWidth (ResponsiveProp.bool false) 80 none))
      = Except.error "font not found") ∧
    useFigletSync (fun _ _ => Except.error "font not found") "Hello"
      "Standard" "default" "default" (ResponsiveProp.bool false) none true 80
      = ("Hello", 1) :=
  ⟨rfl, C5_sync_fallback _ "Hello" "Standard" "default" "default"
    (ResponsiveProp.bool false) none true 80 "font not found" rfl⟩

/-- Claim C7 counterexample: with empty input text, a successful generation
with an empty result reaches the state Ready "" via a run; the component
then displays the fallback "Loading" rather than the Ready value "" that
the spec's rule prescribes. -/
theorem C7_display_counterexample :
    (run (mount iE) [Event.complete 0 (GenOutcome.ok (some ""))]).phase
      = RenderState.Ready "" ∧
    displayText (RenderState.Ready "").art (some "Loading") "" = "Loading" ∧
    specDisplay (RenderState.Ready "") (some "Loading") "" = "" := by
  decide

/-- Claim C7 (amended): the displayed-value rule agrees with the code
whenever the stored string of a Ready/FallbackShown state is nonempty and
any provided fallback is nonempty; in general the code displays the first
nonempty of asciiArt, fallback, text. -/
theorem C7_display_amended (s : RenderState) (fallback : Option String)
    (text : String) (hs : s.art ≠ "" ∨ s = RenderState.Pending)
    (hf : fallback ≠ some "") :
    displayText s.art fallback text = specDisplay s fallback text := by
  cases s with
  | Pending =>
      cases fallback with
      | none => simp [displayText, specDisplay, jsOr, RenderState.art]
      | some f =>
          have hfne : f ≠ "" := fun hcon => hf (by rw [hcon])
          simp [displayText, specDisplay, jsOr, RenderState.art, hfne]
  | Ready x =>
      simp only [RenderState.art] at hs
      have hx : x ≠ "" := by
        rcases hs with h | h
        · exact h
        · simp at h
      simp [displayText, specDisplay, jsOr, RenderState.art, hx]
  | FallbackShown x =>
      simp only [RenderState.art] at hs
      have hx : x ≠ "" := by
        rcases hs with h | h
        · exact h
        · simp at h
      simp [displayText, specDisplay, jsOr, RenderState.art, hx]

/-- Witness for claim C7: state Ready "ART", fallback "Loading", text
"Hello". -/
theorem C7_display_witness :
    ((RenderState.Ready "ART").art ≠ ""
      ∨ RenderState.Ready "ART" = RenderState.Pending) ∧
    (some "Loading" : Option String) ≠ some "" ∧
    displayText (RenderState.Ready "ART").art (some "Loading") "Hello"
      = specDisplay (RenderState.Ready "ART") (some "Loading") "Hello" :=
  ⟨Or.inl (by decide), by decide,
   C7_display_amended (RenderState.Ready "ART") (some "Loading") "Hello"
     (Or.inl (by decide)) (by decide)⟩

/-- Claim C10: the hook value is the empty string until the first
completion is consumed, and an empty hook value is never displayed as
itself: the component shows the provided fallback string or the input
text. -/
theorem C10_empty_display (i : Inputs) (evs : List Event)
    (fallback : Option String) (text : String)
    (h : ∀ e ∈ evs, e.isComplete = false) :
    (run (mount i) evs).phase.art = "" ∧
    (displayText "" fallback text = fallback.getD "" ∨
     displayText "" fallback text = text) := by
  constructor
  · rw [run_phase_of_no_complete (mount i) evs h]
    rfl
  · cases fallback with
    | none =>
        right
        simp [displayText, jsOr]
    | some f =>
        by_cases hfe : f = ""
        · right
          simp [displayText, jsOr, hfe]
        · left
          simp [displayText, jsOr, hfe]

/-- Witness for claim C10: one re-render event and no completion. -/
theorem C10_empty_witness :
    (∀ e ∈ [Event.changeInputs iB], e.isComplete = false) ∧
    ((run (mount iA) [Event.changeInputs iB]).phase.art = "" ∧
     (displayText "" (some "Loading") "Hello" = (some "Loading").getD "" ∨
      displayText "" (some "Loading") "Hello" = "Hello")) :=
  ⟨by decide,
   C10_empty_display iA [Event.changeInputs iB] (some "Loading") "Hello"
     (by decide)⟩
